import Mathlib

/-!
Shallow embedding of `backend/plant/dxf_parser.py` (the DXF → GeoJSON
geometry-reconstruction engine of the Topografia repository).

Coordinates are modelled over `ℝ` (the source computes with Python floats and
`math` trigonometry).  Calls into the external geometry libraries (`ezdxf`
flattening, `shapely.ops.unary_union` / `polygonize`, `alphashape`, shapely's
`is_valid` predicate) are modelled as parameters collected in a `GeoOps`
structure; everything written in the repository itself is translated
concretely.
-/

namespace Topografia

/-- A 2-D point `(x, y)`, the coordinate tuples the parser works with. -/
abbrev Pt : Type := ℝ × ℝ

/-- A 3-D point `(x, y, z)`, used for TEXT / MTEXT / POINT insertion points. -/
abbrev Pt3 : Type := ℝ × ℝ × ℝ

open Classical in
/-- `math.hypot(dx, dy)` for the segment from `s` to `e`: the chord length
computed at dxf_parser.py line 21. -/
noncomputable def chordLen (s e : Pt) : ℝ :=
  Real.sqrt ((e.1 - s.1) ^ 2 + (e.2 - s.2) ^ 2)

/-- `theta = 4 * math.atan(abs(bulge))` (dxf_parser.py line 26): the included
angle of the arc encoded by a polyline bulge value. -/
noncomputable def bulgeTheta (bulge : ℝ) : ℝ :=
  4 * Real.arctan |bulge|

/-- `math.atan2(y, x)`, modelled as the argument of the complex number
`x + y*I` (both lie in `(-π, π]` away from the origin). -/
noncomputable def atan2 (y x : ℝ) : ℝ :=
  Complex.arg ⟨x, y⟩

open Classical in
/-- `bulge_to_arc` (dxf_parser.py lines 11–57): converts a polyline segment
with a bulge into a list of sampled arc points.  Zero bulge returns the two
endpoints; zero chord returns the single start point; otherwise the arc centre
is derived from the chord and the included angle and `segments + 1` points are
sampled at equal angular steps. -/
noncomputable def bulge_to_arc (start e : Pt) (bulge : ℝ) (segments : ℕ := 12) :
    List Pt :=
  if bulge = 0 then [start, e]
  else
    let x1 := start.1; let y1 := start.2
    let x2 := e.1; let y2 := e.2
    let dx := x2 - x1
    let dy := y2 - y1
    let chord := chordLen start e
    if chord = 0 then [start]
    else
      let theta := bulgeTheta bulge
      let r := chord / (2 * Real.sin (theta / 2))
      let mx := (x1 + x2) / 2
      let my := (y1 + y2) / 2
      let d := Real.sqrt |r ^ 2 - (chord / 2) ^ 2|
      let ux := -dy / chord
      let uy := dx / chord
      let ux := if bulge < 0 then -ux else ux
      let uy := if bulge < 0 then -uy else uy
      let cx := mx + ux * d
      let cy := my + uy * d
      let a1 := atan2 (y1 - cy) (x1 - cx)
      let a2 := atan2 (y2 - cy) (x2 - cx)
      let a2 :=
        if 0 < bulge ∧ a2 < a1 then a2 + 2 * Real.pi
        else if bulge < 0 ∧ a1 < a2 then a2 - 2 * Real.pi
        else a2
      (List.range (segments + 1)).map
        (fun i => (cx + r * Real.cos (a1 + (a2 - a1) * i / segments),
                   cy + r * Real.sin (a1 + (a2 - a1) * i / segments)))

lemma bulge_to_arc_zero (s e : Pt) (n : ℕ) :
    bulge_to_arc s e 0 n = [s, e] := by
  simp [bulge_to_arc]

/-- C6: zero bulge yields exactly the two endpoints, and a nonzero bulge on a
zero-length chord (coincident endpoints) yields exactly the start point. -/
theorem bulge_to_arc_degenerate (s e : Pt) (b : ℝ) (n : ℕ) :
    bulge_to_arc s e 0 n = [s, e] ∧
    (b ≠ 0 → bulge_to_arc s s b n = [s]) := by
  constructor
  · exact bulge_to_arc_zero s e n
  · intro hb
    simp [bulge_to_arc, hb, chordLen]

theorem bulge_to_arc_degenerate_witness :
    bulge_to_arc ((0 : ℝ), (0 : ℝ)) ((10 : ℝ), (0 : ℝ)) 0 12 =
      [((0 : ℝ), (0 : ℝ)), ((10 : ℝ), (0 : ℝ))] ∧
    bulge_to_arc ((3 : ℝ), (4 : ℝ)) ((3 : ℝ), (4 : ℝ)) 1 12 =
      [((3 : ℝ), (4 : ℝ))] :=
  ⟨(bulge_to_arc_degenerate ((0 : ℝ), (0 : ℝ)) ((10 : ℝ), (0 : ℝ)) 1 12).1,
   (bulge_to_arc_degenerate ((3 : ℝ), (4 : ℝ)) ((3 : ℝ), (4 : ℝ)) 1 12).2
     (by norm_num)⟩

/-- C9: on the non-degenerate path of `bulge_to_arc` (nonzero bulge, distinct
endpoints) both divisors are nonzero: the chord length is nonzero, and
`2 * sin(theta / 2)` is positive because `theta / 2 = 2 * atan |bulge|` lies in
`(0, π)`. -/
theorem bulge_to_arc_divisors_nonzero (s e : Pt) (b : ℝ)
    (hb : b ≠ 0) (hse : s ≠ e) :
    0 < Real.sin (bulgeTheta b / 2) ∧ chordLen s e ≠ 0 := by
  constructor
  · have habs : 0 < |b| := abs_pos.mpr hb
    have h1 : 0 < Real.arctan |b| := by
      have := Real.arctan_strictMono habs
      rwa [Real.arctan_zero] at this
    have h2 : Real.arctan |b| < Real.pi / 2 := Real.arctan_lt_pi_div_two |b|
    have hhalf : bulgeTheta b / 2 = 2 * Real.arctan |b| := by
      unfold bulgeTheta; ring
    rw [hhalf]
    exact Real.sin_pos_of_pos_of_lt_pi (by linarith) (by linarith)
  · unfold chordLen
    intro h0
    have hsum : (e.1 - s.1) ^ 2 + (e.2 - s.2) ^ 2 = 0 := by
      have hnn : 0 ≤ (e.1 - s.1) ^ 2 + (e.2 - s.2) ^ 2 := by positivity
      have := Real.sqrt_eq_zero hnn |>.mp h0
      exact this
    have hx : (e.1 - s.1) ^ 2 = 0 := by nlinarith [sq_nonneg (e.1 - s.1), sq_nonneg (e.2 - s.2)]
    have hy : (e.2 - s.2) ^ 2 = 0 := by nlinarith [sq_nonneg (e.1 - s.1), sq_nonneg (e.2 - s.2)]
    have hx' : e.1 = s.1 := by
      have := pow_eq_zero_iff (n := 2) (by norm_num) |>.mp hx
      linarith [sub_eq_zero.mp this]
    have hy' : e.2 = s.2 := by
      have := pow_eq_zero_iff (n := 2) (by norm_num) |>.mp hy
      linarith [sub_eq_zero.mp this]
    exact hse (Prod.ext hx'.symm hy'.symm)

theorem bulge_to_arc_divisors_nonzero_witness :
    0 < Real.sin (bulgeTheta 1 / 2) ∧
      chordLen ((0 : ℝ), (0 : ℝ)) ((10 : ℝ), (0 : ℝ)) ≠ 0 :=
  bulge_to_arc_divisors_nonzero ((0 : ℝ), (0 : ℝ)) ((10 : ℝ), (0 : ℝ)) 1
    (by norm_num) (by simp [Prod.ext_iff])

/-!
## Shapely geometry model

`shapely` objects are modelled by their coordinate content.  A `LineString` is
its point list (`LineString(pts)` raises for a single point and is empty for no
points).  A `Polygon`'s exterior is a `LinearRing`: shapely stores the ring
explicitly closed (the first coordinate is repeated at the end), requires at
least 4 coordinates once closed, and `Polygon.area` / `Polygon.length` are the
shoelace area and the ring's arc length. -/

/-- A shapely `Polygon` restricted to what the parser uses: its exterior ring,
stored as shapely does — explicitly closed, first coordinate repeated last. -/
structure SPoly where
  exterior : List Pt
  deriving Inhabited

/-- `Polygon.is_empty`: a polygon with no coordinates. -/
def SPoly.isEmptyPoly (p : SPoly) : Bool :=
  p.exterior.isEmpty

open Classical in
/-- Close a coordinate ring the way shapely's `LinearRing` does: if the first
and last coordinates differ, the first is appended at the end. -/
noncomputable def closeRing (pts : List Pt) : List Pt :=
  if pts.head? = pts.getLast? then pts else pts ++ pts.take 1

open Classical in
/-- The shapely `Polygon(points)` constructor: an empty sequence yields an
empty polygon, a ring with fewer than 4 coordinates once closed raises
(modelled as `none`), otherwise the closed ring becomes the exterior. -/
noncomputable def mkPolygon (pts : List Pt) : Option SPoly :=
  if pts.isEmpty then some ⟨[]⟩
  else
    let ring := closeRing pts
    if 4 ≤ ring.length then some ⟨ring⟩ else none

/-- Twice the signed shoelace sum along a coordinate list. -/
def shoelace : List Pt → ℝ
  | p :: q :: rest => (p.1 * q.2 - q.1 * p.2) + shoelace (q :: rest)
  | _ => 0

/-- Arc length along a coordinate list (sum of segment lengths). -/
noncomputable def pathLength : List Pt → ℝ
  | p :: q :: rest =>
      Real.sqrt ((q.1 - p.1) ^ 2 + (q.2 - p.2) ^ 2) + pathLength (q :: rest)
  | _ => 0

/-- `Polygon.area` (always non-negative) over the closed exterior ring. -/
noncomputable def SPoly.area (p : SPoly) : ℝ :=
  |shoelace p.exterior| / 2

/-- `Polygon.length`: the perimeter, the exterior ring's arc length. -/
noncomputable def SPoly.perim (p : SPoly) : ℝ :=
  pathLength p.exterior

/-!
## Raw entities

`Doc.entities` models `all_raw_entities` of
`get_entities_from_modelspace_and_blocks` (dxf_parser.py lines 166–195): the
supported entities drawn in model space together with the virtual entities of
every resolved INSERT, in iteration order.  Walking `msp` and exploding blocks
happens inside `ezdxf` and is outside the embedding; the layer filter (lines
151–202), which is repository code, is modelled concretely below.  The results
of the external `ezdxf` flattening routines (`arc.flattening`,
`e.flattening(12)` for ELLIPSE / SPLINE) are carried on the entity, `none`
standing for a raised exception. -/

/-- TEXT vs MTEXT (the two branches of `parse_text_to_point`). -/
inductive TextKind where
  | text
  | mtext
  deriving Inhabited

/-- `dxftype()` string of a text entity. -/
def TextKind.dxftype : TextKind → String
  | .text => "TEXT"
  | .mtext => "MTEXT"

/-- One boundary path of a HATCH entity: its vertex loop and its
`is_closed` flag.  `ezdxf.path.BoundaryPathType` has exactly the two members
POLYLINE and EDGE_PATH, so the membership test at dxf_parser.py lines 98–101
is always true and is not modelled. -/
structure HPath where
  vertices : List Pt
  is_closed : Bool

/-- The geometric payload of a supported DXF entity. -/
inductive EntityData where
  | line (start e : Pt)
  | lwpolyline (verts : List (Pt × ℝ)) (closed : Bool)
  | polyline (pts : List Pt)
  | arc (flat : Option (List Pt))
  | circle (center : Pt) (radius : ℝ)
  | ellipse (flat : Option (List Pt))
  | spline (flat : Option (List Pt))
  | hatch (paths : List HPath)
  | text (kind : TextKind) (insert : Pt3) (content : String) (char_height : Option ℝ)
  | point (location : Pt3)

/-- `dxftype()` of an entity. -/
def EntityData.dxftype : EntityData → String
  | .line .. => "LINE"
  | .lwpolyline .. => "LWPOLYLINE"
  | .polyline .. => "POLYLINE"
  | .arc .. => "ARC"
  | .circle .. => "CIRCLE"
  | .ellipse .. => "ELLIPSE"
  | .spline .. => "SPLINE"
  | .hatch .. => "HATCH"
  | .text k .. => k.dxftype
  | .point .. => "POINT"

/-- A collected raw entity: its layer name (`e.dxf.layer`) and payload. -/
structure Entity where
  layer : String
  data : EntityData

/-- A parsed DXF document as the engine sees it: the collected raw entities
(model space plus exploded blocks, supported kinds only) and the names in the
document's layer table (`doc.layers`). -/
structure Doc where
  entities : List Entity
  layers : List String

/-- Python's `str.upper()` on layer names: upper-case every character
(character-wise, the same as Lean's `String.toUpper`, restated structurally). -/
def upperStr (s : String) : String :=
  ⟨s.data.map Char.toUpper⟩

/-- `get_entities_from_modelspace_and_blocks` (dxf_parser.py lines 146–202),
restricted to its repository-side logic: normalise the target layers to an
upper-cased set (a single string becomes a singleton) and keep an entity iff
no filter is given or its upper-cased layer is in the set.  Every supported
entity carries a layer, so the `hasattr` guard always passes. -/
def get_entities_from_modelspace_and_blocks
    (all_raw_entities : List Entity) (target_layers : Option (List String)) :
    List Entity :=
  let normalized_target_layers := target_layers.map (List.map upperStr)
  all_raw_entities.filter fun e =>
    match normalized_target_layers with
    | none => true
    | some ns => ns.contains (upperStr e.layer)

/-!
## Per-entity geometry building (dxf_parser.py lines 60–143 and 228–298)
-/

/-- The shapely `LineString(pts)` constructor: raises on a single point
(`none`), otherwise the coordinate list itself (an empty list is the empty
`LineString`). -/
def mkLineString (pts : List Pt) : Option (List Pt) :=
  if pts.length == 1 then none else some pts

/-- `new_pts` of the LWPOLYLINE branch (dxf_parser.py lines 263–268): for each
index `i` below `len(pts) - 1`, extend with `bulge_to_arc(pts[i], pts[i+1],
bulges[i])`; when the polyline is closed, additionally extend with
`bulge_to_arc(pts[-1], pts[0], bulges[-1])`.  `pts` and `bulges` are the
parallel lists extracted from the vertices (lines 243–258; extraction cannot
fail on well-typed vertices). -/
noncomputable def lwNewPts (verts : List (Pt × ℝ)) (closed : Bool) : List Pt :=
  let pts := verts.map Prod.fst
  let bulges := verts.map Prod.snd
  let base := (List.range (pts.length - 1)).foldl
    (fun acc i =>
      acc ++ bulge_to_arc (pts.getD i ((0 : ℝ), (0 : ℝ)))
        (pts.getD (i + 1) ((0 : ℝ), (0 : ℝ))) (bulges.getD i 0)) []
  if closed then
    base ++ bulge_to_arc (pts.getLastD ((0 : ℝ), (0 : ℝ)))
      (pts.headD ((0 : ℝ), (0 : ℝ))) (bulges.getLastD 0)
  else base

/-- The LWPOLYLINE branch (dxf_parser.py lines 242–273): with at least two
vertices, tessellate to `new_pts` and build a `LineString` from it (a raised
constructor is caught, leaving no geometry); with fewer, no geometry. -/
noncomputable def lwpolylineGeometry
    (verts : List (Pt × ℝ)) (closed : Bool) : Option (List Pt) :=
  if 2 ≤ (verts.map Prod.fst).length then mkLineString (lwNewPts verts closed)
  else none

/-- `arc_to_linestring` (dxf_parser.py lines 60–68): the flattening result
(`none` for a raised exception) becomes a `LineString` when it has at least
two points, otherwise `None`. -/
def arc_to_linestring (flat : Option (List Pt)) : Option (List Pt) :=
  match flat with
  | none => none
  | some points => if 2 ≤ points.length then some points else none

open Classical in
/-- `circle_to_linestring` (dxf_parser.py lines 71–90): sample
`segments + 1` points around the circle and close the loop if the first and
last points differ. -/
noncomputable def circle_to_linestring
    (center : Pt) (radius : ℝ) (segments : ℕ := 32) : Option (List Pt) :=
  let pts := (List.range (segments + 1)).map fun i =>
    (center.1 + radius * Real.cos (2 * Real.pi * i / segments),
     center.2 + radius * Real.sin (2 * Real.pi * i / segments))
  let pts :=
    if 1 < pts.length ∧ pts.head? ≠ pts.getLast? then pts ++ pts.take 1
    else pts
  some pts

/-- The ELLIPSE / SPLINE branch (dxf_parser.py lines 293–298): the
`e.flattening(12)` result (`none` for a raised exception) is fed to the
`LineString` constructor inside a try/except. -/
def flattening_to_linestring (flat : Option (List Pt)) : Option (List Pt) :=
  match flat with
  | none => none
  | some points => mkLineString points

/-- The line-like conversion dispatch (dxf_parser.py lines 228–298): the
geometry object produced for LINE, LWPOLYLINE, POLYLINE, ARC, CIRCLE, ELLIPSE
and SPLINE entities (`none` when the branch leaves `geometry_obj = None`).
Other kinds are handled by their own branches and yield `none` here. -/
noncomputable def lineLikeGeometry : EntityData → Option (List Pt)
  | .line s t => some [s, t]
  | .lwpolyline verts closed => lwpolylineGeometry verts closed
  | .polyline pts => if 2 ≤ pts.length then some pts else none
  | .arc flat => arc_to_linestring flat
  | .circle c r => circle_to_linestring c r
  | .ellipse flat => flattening_to_linestring flat
  | .spline flat => flattening_to_linestring flat
  | _ => none

open Classical in
/-- `parse_hatch_to_polygons` (dxf_parser.py lines 93–113): for each boundary
path with more than two vertices, close the loop when the path is flagged
closed and its ends differ, then build a shapely `Polygon` (a raised
constructor is caught and the path skipped). -/
noncomputable def parse_hatch_to_polygons (paths : List HPath) : List SPoly :=
  paths.foldl
    (fun polygons path =>
      let points := path.vertices
      if 2 < points.length then
        let points :=
          if path.is_closed ∧ points.head? ≠ points.getLast? then
            points ++ points.take 1
          else points
        match mkPolygon points with
        | some poly => polygons ++ [poly]
        | none => polygons
      else polygons)
    []

/-- A GeoJSON Point feature as built for TEXT / MTEXT (with a text payload)
and POINT entities (without one) — dxf_parser.py lines 116–143 and 327–341. -/
structure PointFeature where
  coordinates : Pt3
  layer : String
  etype : String
  textPayload : Option String
  char_height : Option ℝ

/-- `parse_text_to_point` (dxf_parser.py lines 116–143): a TEXT / MTEXT
entity with non-empty content becomes a Point feature carrying the text and
the `char_height` when that attribute exists; empty content yields `None`. -/
def parse_text_to_point (kind : TextKind) (insert : Pt3) (content : String)
    (char_height : Option ℝ) (layer : String) : Option PointFeature :=
  if content.isEmpty then none
  else some ⟨insert, layer, kind.dxftype, some content, char_height⟩

/-!
## The parse pipeline (dxf_parser.py lines 205–431)
-/

/-- `geom_type` of `unary_union(lines)` as far as the parser inspects it
(dxf_parser.py line 357). -/
inductive MergedType where
  | lineString
  | multiLineString
  | other

/-- `geom_type` dispatch on the `alphashape` result
(dxf_parser.py lines 369–372). -/
inductive AlphaShape where
  | poly (p : SPoly)
  | multi (ps : List SPoly)
  | other

/-- The external geometry library calls the parser makes, as functions of the
concrete inputs the parser hands them.  `polygonizeRes lines` stands for
`list(polygonize(unary_union(lines)))` (`none` = raised), `alphaRes pts` for
`alphashape.alphashape(pts, 0.01)` (`none` = raised), `isValid` for shapely's
`is_valid`. -/
structure GeoOps where
  unionType : List (List Pt) → MergedType
  polygonizeRes : List (List Pt) → Option (List SPoly)
  alphaRes : List Pt → Option AlphaShape
  isValid : SPoly → Bool

/-- A geometry stored in `original_drawing_entities`: a converted line-like
curve or a hatch polygon. -/
inductive Geom where
  | lineString (pts : List Pt)
  | polygon (p : SPoly)

/-- One record of `original_drawing_entities`
(dxf_parser.py lines 302–308 and 314–320). -/
structure DrawEnt where
  geometry : Geom
  layer : String
  etype : String

/-- `layer_count[key] += 1` on an insertion-ordered `defaultdict(int)`. -/
def bump (m : List (String × Nat)) (key : String) : List (String × Nat) :=
  match m with
  | [] => [(key, 1)]
  | (k, v) :: rest =>
      if k = key then (k, v + 1) :: rest else (k, v) :: bump rest key

/-- The accumulators of the entity loop (dxf_parser.py lines 214–218). -/
structure LoopState where
  layer_count : List (String × Nat)
  lines : List (List Pt)
  features_non_geometry : List PointFeature
  original_drawing_entities : List DrawEnt

/-- The empty loop state before the entity loop runs. -/
def initState : LoopState := ⟨[], [], [], []⟩

/-- One iteration of the entity loop (dxf_parser.py lines 224–341): count the
entity's layer, then dispatch on its kind.  A line-like entity with non-empty
geometry is appended to `lines` and `original_drawing_entities`; each valid,
non-empty hatch polygon is appended to `original_drawing_entities`; TEXT /
MTEXT / POINT entities append to `features_non_geometry`. -/
noncomputable def processEntity (ops : GeoOps) (st : LoopState) (e : Entity) :
    LoopState :=
  let st := { st with layer_count := bump st.layer_count e.layer }
  match e.data with
  | .hatch paths =>
      let kept := (parse_hatch_to_polygons paths).filter fun poly =>
        ops.isValid poly && !poly.isEmptyPoly
      { st with original_drawing_entities :=
          st.original_drawing_entities ++
            kept.map fun poly => ⟨.polygon poly, e.layer, "HATCH"⟩ }
  | .text kind insert content h =>
      match parse_text_to_point kind insert content h e.layer with
      | some f =>
          { st with features_non_geometry := st.features_non_geometry ++ [f] }
      | none => st
  | .point location =>
      { st with features_non_geometry :=
          st.features_non_geometry ++
            [⟨location, e.layer, "POINT", none, none⟩] }
  | d =>
      match lineLikeGeometry d with
      | some pts =>
          if !pts.isEmpty then
            { st with
              lines := st.lines ++ [pts]
              original_drawing_entities :=
                st.original_drawing_entities ++
                  [⟨.lineString pts, e.layer, d.dxftype⟩] }
          else st
      | none => st

/-- Run the entity loop over a list of entities. -/
noncomputable def buildState (ops : GeoOps) (es : List Entity) : LoopState :=
  es.foldl (processEntity ops) initState

/-- The polygon-reconstruction step (dxf_parser.py lines 353–374): with no
lines there are no polygons; otherwise polygonize the merged union when its
type is line-like, and when that leaves no polygon, pool every point of every
line and interpret the alpha shape (concavity 0.01): a Polygon becomes the one
entry, a MultiPolygon contributes its parts, anything else (or a raised call)
leaves the list unchanged. -/
noncomputable def reconstructPolygons (ops : GeoOps)
    (lines : List (List Pt)) : List SPoly :=
  if lines.isEmpty then []
  else
    let polygons : List SPoly :=
      match ops.unionType lines with
      | .lineString => (ops.polygonizeRes lines).getD []
      | .multiLineString => (ops.polygonizeRes lines).getD []
      | .other => []
    if polygons.isEmpty then
      let all_pts := lines.foldl (fun acc l => acc ++ l) []
      match ops.alphaRes all_pts with
      | some (.poly outline) => [outline]
      | some (.multi parts) => polygons ++ parts
      | some .other => polygons
      | none => polygons
    else polygons

/-- One entry of `constructions` (dxf_parser.py lines 389–393). -/
structure RegionData where
  area : ℝ
  perimeter : ℝ
  vertices : Nat

/-- The metrics record of one valid polygon (dxf_parser.py lines 383–393):
area scaled by the square of the scale factor, perimeter scaled by the factor,
and `len(list(poly.exterior.coords))` as the vertex count. -/
noncomputable def regionData (poly : SPoly) (scale_factor : ℝ) : RegionData :=
  { area := poly.area * scale_factor ^ 2
    perimeter := poly.perim * scale_factor
    vertices := poly.exterior.length }

/-- The `metadata` dictionary (dxf_parser.py lines 402–411). -/
structure Metadata where
  constructions : List RegionData
  total_constructions : Nat
  entities_per_layer : List (String × Nat)
  layers : List String
  total_area_m2 : ℝ
  total_perimeter_m : ℝ
  total_entities_found : Nat

/-- A serialized GeoJSON feature: a reconstructed polygon with metrics, a raw
drawing entity (preview mode), or a text / point feature. -/
inductive Feature where
  | region (data : RegionData) (geom : SPoly)
  | draw (geometry : Geom) (layer : String) (etype : String)
  | pointF (f : PointFeature)

/-- The error raised at dxf_parser.py lines 343–351: with a filter the message
is "No entities found in the selected layers. Available layers: {layer_names}"
(carrying the layer-table names), without one it is "No supported geometric
entities found in the file.". -/
inductive ParseError where
  | noEntitiesUnfiltered
  | noEntitiesFiltered (layer_names : List String)

/-- The outcome of `parse_dxf_to_geojson`: the preview return (line 429), the
polygon-mode return (line 431), or a raised `ValueError`. -/
inductive ParseResult where
  | previewOk (features : List Feature) (md : Metadata) (ents : List DrawEnt)
  | polygonOk (features : List Feature) (md : Metadata) (polys : List SPoly)
  | err (e : ParseError)

/-- The metadata of a successful parse. -/
def ParseResult.metadataOf : ParseResult → Option Metadata
  | .previewOk _ md _ => some md
  | .polygonOk _ md _ => some md
  | .err _ => none

/-- Whether the parse raised. -/
def ParseResult.isError : ParseResult → Bool
  | .err _ => true
  | _ => false

/-- Whether the parse returned in preview (unfiltered) mode. -/
def ParseResult.isPreview : ParseResult → Bool
  | .previewOk .. => true
  | _ => false

/-- The polygon list returned in polygon mode. -/
def ParseResult.polygonsOf : ParseResult → Option (List SPoly)
  | .polygonOk _ _ polys => some polys
  | _ => none

/-- The loop state after collecting and filtering entities and running the
entity loop (dxf_parser.py lines 220–341). -/
noncomputable def parseState (ops : GeoOps) (doc : Doc)
    (target_layers : Option (List String)) : LoopState :=
  buildState ops
    (get_entities_from_modelspace_and_blocks doc.entities target_layers)

/-- The `poly.is_valid and not poly.is_empty` filter of the metrics loop
(dxf_parser.py line 382). -/
noncomputable def validPolygons (ops : GeoOps) (polygons : List SPoly) :
    List SPoly :=
  polygons.filter fun poly => ops.isValid poly && !poly.isEmptyPoly

/-- The `metadata` record assembled at dxf_parser.py lines 376–411: metrics
for every valid polygon, layer bookkeeping from the loop state, scaled totals,
and `total_entities_found` as the number of drawing entities plus the number
of text / point features. -/
noncomputable def assembleMetadata (st : LoopState) (valid : List SPoly)
    (scale_factor : ℝ) : Metadata :=
  let constructions := valid.map fun poly => regionData poly scale_factor
  { constructions := constructions
    total_constructions := constructions.length
    entities_per_layer := st.layer_count
    layers := st.layer_count.map Prod.fst
    total_area_m2 := (constructions.map RegionData.area).sum
    total_perimeter_m := (constructions.map RegionData.perimeter).sum
    total_entities_found :=
      st.original_drawing_entities.length + st.features_non_geometry.length }

/-- The preview feature collection (dxf_parser.py lines 413–427): every
drawing entity verbatim, then the text / point features. -/
def previewFeatures (st : LoopState) : List Feature :=
  st.original_drawing_entities.map
      (fun it => Feature.draw it.geometry it.layer it.etype) ++
    st.features_non_geometry.map Feature.pointF

/-- The polygon-mode feature collection (dxf_parser.py lines 376–400): one
annotated polygon feature per valid polygon, then the text / point
features. -/
noncomputable def polygonFeatures (valid : List SPoly) (scale_factor : ℝ)
    (st : LoopState) : List Feature :=
  valid.map (fun poly => Feature.region (regionData poly scale_factor) poly) ++
    st.features_non_geometry.map Feature.pointF

/-- `parse_dxf_to_geojson` (dxf_parser.py lines 205–431): collect and filter
entities, run the entity loop, raise when no line and no text / point feature
was built (the message carrying the layer-table names exactly when a filter
was given), otherwise reconstruct polygons, assemble the metadata, and return
the preview collection (no filter) or the polygon-mode collection together
with the reconstructed polygons (filter given). -/
noncomputable def parse_dxf_to_geojson (ops : GeoOps) (doc : Doc)
    (scale_factor : ℝ) (target_layers : Option (List String)) : ParseResult :=
  let st := parseState ops doc target_layers
  if st.lines.isEmpty && st.features_non_geometry.isEmpty then
    match target_layers with
    | some _ => .err (.noEntitiesFiltered doc.layers)
    | none => .err .noEntitiesUnfiltered
  else
    let polygons := reconstructPolygons ops st.lines
    let valid := validPolygons ops polygons
    let metadata := assembleMetadata st valid scale_factor
    match target_layers with
    | none => .previewOk (previewFeatures st) metadata
        st.original_drawing_entities
    | some _ => .polygonOk (polygonFeatures valid scale_factor st) metadata
        polygons

/-!
## Helper lemmas about the pipeline
-/

/-- The layer counts accumulated by the entity loop over a list of entities
(dxf_parser.py line 225). -/
def layerCounts (es : List Entity) : List (String × Nat) :=
  es.foldl (fun m e => bump m e.layer) []

lemma processEntity_layer_count (ops : GeoOps) (st : LoopState) (e : Entity) :
    (processEntity ops st e).layer_count = bump st.layer_count e.layer := by
  rcases e with ⟨l, d⟩
  cases d <;> simp only [processEntity] <;>
    (try split) <;> (try split) <;> rfl

lemma foldl_processEntity_layer_count (ops : GeoOps) (es : List Entity) :
    ∀ st : LoopState,
      (es.foldl (processEntity ops) st).layer_count =
        es.foldl (fun m e => bump m e.layer) st.layer_count := by
  induction es with
  | nil => intro st; rfl
  | cons e rest ih =>
      intro st
      simp only [List.foldl_cons, ih, processEntity_layer_count]

lemma buildState_layer_count (ops : GeoOps) (es : List Entity) :
    (buildState ops es).layer_count = layerCounts es :=
  foldl_processEntity_layer_count ops es initState

lemma parse_metadataOf_eq (ops : GeoOps) (doc : Doc) (s : ℝ)
    (tl : Option (List String)) :
    (parse_dxf_to_geojson ops doc s tl).metadataOf =
      if (parseState ops doc tl).lines.isEmpty &&
          (parseState ops doc tl).features_non_geometry.isEmpty then none
      else some (assembleMetadata (parseState ops doc tl)
        (validPolygons ops
          (reconstructPolygons ops (parseState ops doc tl).lines)) s) := by
  unfold parse_dxf_to_geojson
  cases h : ((parseState ops doc tl).lines.isEmpty &&
      (parseState ops doc tl).features_non_geometry.isEmpty) <;>
    cases tl <;> simp [h, ParseResult.metadataOf]

/-!
## Concrete instances for witnesses and counterexamples

`stdOps` records the behaviour of the real libraries at the concrete inputs
the closed theorems below feed them: the union of a single `LineString` is a
`LineString` and of several disjoint ones a `MultiLineString`; polygonizing a
network of disjoint open segments yields no polygon; the alpha shape of a few
collinear points is not polygonal; and plain triangles are valid polygons. -/
def stdOps : GeoOps :=
  { unionType := fun ls => if ls.length ≤ 1 then .lineString
      else .multiLineString
    polygonizeRes := fun _ => some []
    alphaRes := fun _ => some .other
    isValid := fun _ => true }

/-- A document with no supported entity; its layer table holds "Layer1". -/
def docEmpty : Doc := ⟨[], ["Layer1"]⟩

/-- Two disjoint collinear LINE segments on layers "A" and "B". -/
def docTwoLines : Doc :=
  ⟨[⟨"A", .line ((0 : ℝ), (0 : ℝ)) ((1 : ℝ), (0 : ℝ))⟩,
    ⟨"B", .line ((2 : ℝ), (0 : ℝ)) ((3 : ℝ), (0 : ℝ))⟩], ["A", "B"]⟩

/-- A single LINE segment on layer "A". -/
def docOneLine : Doc :=
  ⟨[⟨"A", .line ((0 : ℝ), (0 : ℝ)) ((1 : ℝ), (0 : ℝ))⟩], ["A"]⟩

/-- A single TEXT entity with non-empty content on layer "A". -/
def docText : Doc :=
  ⟨[⟨"A", .text .text ((0 : ℝ), (0 : ℝ), (0 : ℝ)) "nota" none⟩], ["A"]⟩

/-!
## C1 — per-layer counts versus the layer filter
-/

/-- C1 counterexample: on a drawing with one LINE on layer "A" and one on
layer "B", filtering to {"A"} yields `entities_per_layer = {"A": 1}` while the
unfiltered call yields `{"A": 1, "B": 1}` — the counts are not identical, so
layer-count bookkeeping does not happen before filtering. -/
theorem layer_counts_depend_on_filter :
    (parse_dxf_to_geojson stdOps docTwoLines 1 (some ["A"])).metadataOf.map
        Metadata.entities_per_layer = some [("A", 1)] ∧
    (parse_dxf_to_geojson stdOps docTwoLines 1 none).metadataOf.map
        Metadata.entities_per_layer = some [("A", 1), ("B", 1)] ∧
    ([("A", (1 : Nat))] : List (String × Nat)) ≠ [("A", 1), ("B", 1)] := by
  refine ⟨rfl, rfl, by decide⟩

/-- C1 amended: `entities_per_layer` is computed after the layer filter — for
every call that returns, it equals the layer counts of exactly the entities
that passed the filter (hence all entities only when no filter is given). -/
theorem entities_per_layer_eq_filtered_counts (ops : GeoOps) (doc : Doc)
    (s : ℝ) (tl : Option (List String)) (md : Metadata)
    (h : (parse_dxf_to_geojson ops doc s tl).metadataOf = some md) :
    md.entities_per_layer =
      layerCounts (get_entities_from_modelspace_and_blocks doc.entities tl) := by
  rw [parse_metadataOf_eq] at h
  split at h
  · exact absurd h (by simp)
  · have hmd := Option.some.inj h
    rw [← hmd]
    show (parseState ops doc tl).layer_count = _
    rw [parseState, buildState_layer_count]

/-- C1 amended, witnessed on a one-line document parsed with no filter. -/
theorem entities_per_layer_eq_filtered_counts_witness :
    (parse_dxf_to_geojson stdOps docOneLine 1 none).metadataOf =
        some (assembleMetadata (parseState stdOps docOneLine none)
          (validPolygons stdOps
            (reconstructPolygons stdOps (parseState stdOps docOneLine none).lines)) 1) ∧
    (assembleMetadata (parseState stdOps docOneLine none)
        (validPolygons stdOps
          (reconstructPolygons stdOps (parseState stdOps docOneLine none).lines)) 1).entities_per_layer =
      layerCounts
        (get_entities_from_modelspace_and_blocks docOneLine.entities none) :=
  ⟨rfl, entities_per_layer_eq_filtered_counts stdOps docOneLine 1 none _ rfl⟩

/-!
## C2 — unfiltered (preview) mode error behaviour
-/

/-- C2 counterexample: with `target_layers = None` on a document that yields
no curve and no text / point feature (here: no supported entity at all), the
call does raise the no-geometry `ValueError` — it does not return an empty
feature collection. -/
theorem unfiltered_parse_raises_on_empty :
    parse_dxf_to_geojson stdOps docEmpty 1 none =
      .err .noEntitiesUnfiltered := by
  rfl

/-- C2 amended: with no filter, the call raises (the message without the layer
list) exactly when no curve and no text / point feature was built; in every
other case it returns the preview collection of unmerged curves and point
features — in particular it never raises merely because no polygon exists. -/
theorem parse_unfiltered_characterization (ops : GeoOps) (doc : Doc) (s : ℝ) :
    parse_dxf_to_geojson ops doc s none =
      if (parseState ops doc none).lines.isEmpty &&
          (parseState ops doc none).features_non_geometry.isEmpty then
        .err .noEntitiesUnfiltered
      else
        .previewOk (previewFeatures (parseState ops doc none))
          (assembleMetadata (parseState ops doc none)
            (validPolygons ops
              (reconstructPolygons ops (parseState ops doc none).lines)) s)
          (parseState ops doc none).original_drawing_entities := by
  unfold parse_dxf_to_geojson
  cases h : ((parseState ops doc none).lines.isEmpty &&
      (parseState ops doc none).features_non_geometry.isEmpty) <;> simp [h]

/-!
## C4 — filtered (polygon) mode error behaviour
-/

/-- C4 counterexample: filtering to layer "A" on a document whose only entity
is a TEXT note on "A" builds no Region at all (the returned polygon list is
empty), yet the call returns normally instead of raising. -/
theorem filtered_no_region_without_error :
    (parse_dxf_to_geojson stdOps docText 1 (some ["A"])).isError = false ∧
    (parse_dxf_to_geojson stdOps docText 1 (some ["A"])).polygonsOf =
      some [] := by
  exact ⟨rfl, rfl⟩

/-- C4 amended: with a filter, the call raises exactly when the filtered
entity loop built no curve and no text / point feature (in particular when the
filter matches zero entities), and the error is the no-entities error carrying
the document's layer-table names; in every other case — even when no Region
can be built — it returns normally, with the constructions (zero when the
reconstruction yields no valid polygon) and the reconstructed polygon list. -/
theorem parse_filtered_characterization (ops : GeoOps) (doc : Doc) (s : ℝ)
    (tl : List String) :
    parse_dxf_to_geojson ops doc s (some tl) =
      if (parseState ops doc (some tl)).lines.isEmpty &&
          (parseState ops doc (some tl)).features_non_geometry.isEmpty then
        .err (.noEntitiesFiltered doc.layers)
      else
        .polygonOk
          (polygonFeatures
            (validPolygons ops
              (reconstructPolygons ops (parseState ops doc (some tl)).lines))
            s (parseState ops doc (some tl)))
          (assembleMetadata (parseState ops doc (some tl))
            (validPolygons ops
              (reconstructPolygons ops (parseState ops doc (some tl)).lines))
            s)
          (reconstructPolygons ops (parseState ops doc (some tl)).lines) := by
  unfold parse_dxf_to_geojson
  cases h : ((parseState ops doc (some tl)).lines.isEmpty &&
      (parseState ops doc (some tl)).features_non_geometry.isEmpty) <;>
    simp [h]

/-!
## C5 — scale linearity
-/

lemma regionData_scale (p : SPoly) (s : ℝ) :
    regionData p s =
      ⟨(regionData p 1).area * s ^ 2, (regionData p 1).perimeter * s,
        (regionData p 1).vertices⟩ := by
  simp only [regionData, RegionData.mk.injEq]
  exact ⟨by ring, by ring, trivial⟩

/-- C5: the reconstruction step is independent of the scale factor, and every
reported region metric scales as area by `s²` and perimeter by `s`; the totals
follow. -/
theorem scale_linearity (ops : GeoOps) (doc : Doc)
    (tl : Option (List String)) (s : ℝ) (md_s md_1 : Metadata)
    (hs : 0 < s)
    (hms : (parse_dxf_to_geojson ops doc s tl).metadataOf = some md_s)
    (hm1 : (parse_dxf_to_geojson ops doc 1 tl).metadataOf = some md_1) :
    md_s.constructions = md_1.constructions.map
      (fun d => ⟨d.area * s ^ 2, d.perimeter * s, d.vertices⟩) ∧
    md_s.total_area_m2 = md_1.total_area_m2 * s ^ 2 ∧
    md_s.total_perimeter_m = md_1.total_perimeter_m * s := by
  rw [parse_metadataOf_eq] at hms hm1
  by_cases hc : ((parseState ops doc tl).lines.isEmpty &&
      (parseState ops doc tl).features_non_geometry.isEmpty) = true
  · rw [if_pos hc] at hms
    exact absurd hms (by simp)
  · rw [if_neg hc] at hms hm1
    obtain rfl : md_s = _ := (Option.some.inj hms).symm
    obtain rfl : md_1 = _ := (Option.some.inj hm1).symm
    set valid := validPolygons ops
      (reconstructPolygons ops (parseState ops doc tl).lines) with hv
    refine ⟨?_, ?_, ?_⟩
    · simp only [assembleMetadata, List.map_map]
      apply List.map_congr_left
      intro p _
      simpa using regionData_scale p s
    · simp only [assembleMetadata, List.map_map]
      have : ∀ p : SPoly,
          (RegionData.area ∘ fun poly => regionData poly s) p =
            (fun poly => poly.area * s ^ 2) p := by
        intro p; simp [regionData]
      rw [List.map_congr_left fun p _ => this p]
      have h1 : ∀ p : SPoly,
          (RegionData.area ∘ fun poly => regionData poly 1) p =
            (fun poly => SPoly.area poly) p := by
        intro p; simp [regionData]
      rw [List.map_congr_left fun p _ => h1 p]
      exact List.sum_map_mul_right valid SPoly.area (s ^ 2)
    · simp only [assembleMetadata, List.map_map]
      have : ∀ p : SPoly,
          (RegionData.perimeter ∘ fun poly => regionData poly s) p =
            (fun poly => poly.perim * s) p := by
        intro p; simp [regionData]
      rw [List.map_congr_left fun p _ => this p]
      have h1 : ∀ p : SPoly,
          (RegionData.perimeter ∘ fun poly => regionData poly 1) p =
            (fun poly => SPoly.perim poly) p := by
        intro p; simp [regionData]
      rw [List.map_congr_left fun p _ => h1 p]
      exact List.sum_map_mul_right valid SPoly.perim s

/-- The metadata of a one-line document (no polygon is reconstructed, totals
are zero). -/
def mdOneLine : Metadata :=
  ⟨[], 0, [("A", 1)], ["A"], 0, 0, 1⟩

/-- C5 witnessed at scale factor 2 on a one-line document. -/
theorem scale_linearity_witness :
    (0 : ℝ) < 2 ∧
    mdOneLine.constructions = mdOneLine.constructions.map
      (fun d => ⟨d.area * 2 ^ 2, d.perimeter * 2, d.vertices⟩) ∧
    mdOneLine.total_area_m2 = mdOneLine.total_area_m2 * 2 ^ 2 ∧
    mdOneLine.total_perimeter_m = mdOneLine.total_perimeter_m * 2 :=
  ⟨by norm_num,
   scale_linearity stdOps docOneLine none 2 mdOneLine mdOneLine (by norm_num)
     rfl rfl⟩

/-!
## C7 — the LWPOLYLINE curve is the concatenation of its tessellated segments
-/

/-- The LWPOLYLINE curve as the spec describes it (§4.3): tessellate every
consecutive vertex pair with that segment's bulge and concatenate; when the
polyline is flagged closed, additionally tessellate the closing segment from
the last vertex back to the first with the last vertex's bulge. -/
noncomputable def lwSpecCurve (verts : List (Pt × ℝ)) (closed : Bool) :
    List Pt :=
  ((verts.zip verts.tail).map fun vw =>
      bulge_to_arc vw.1.1 vw.2.1 vw.1.2).flatten ++
    (if closed then
      bulge_to_arc (verts.getLastD (((0 : ℝ), (0 : ℝ)), 0)).1
        (verts.headD (((0 : ℝ), (0 : ℝ)), 0)).1
        (verts.getLastD (((0 : ℝ), (0 : ℝ)), 0)).2
    else [])

lemma foldl_append_map {α β : Type} (f : α → List β) (l : List α) :
    ∀ acc : List β,
      l.foldl (fun a x => a ++ f x) acc = acc ++ (l.map f).flatten := by
  induction l with
  | nil => intro acc; simp
  | cons x xs ih => intro acc; simp [ih, List.append_assoc]

lemma range_map_bulge :
    ∀ verts : List (Pt × ℝ),
      (List.range (verts.length - 1)).map
        (fun i => bulge_to_arc
          ((verts.map Prod.fst).getD i ((0 : ℝ), (0 : ℝ)))
          ((verts.map Prod.fst).getD (i + 1) ((0 : ℝ), (0 : ℝ)))
          ((verts.map Prod.snd).getD i 0)) =
      (verts.zip verts.tail).map
        (fun vw => bulge_to_arc vw.1.1 vw.2.1 vw.1.2)
  | [] => by simp
  | [v] => by simp
  | v :: w :: rest => by
      have ih := range_map_bulge (w :: rest)
      simp only [List.length_cons, Nat.add_sub_cancel] at ih ⊢
      rw [List.range_succ_eq_map]
      simp only [List.map_cons, List.map_map, List.zip_cons_cons]
      exact congrArg₂ List.cons rfl ih

lemma getLastD_map_fst : ∀ (l : List (Pt × ℝ)) (d : Pt × ℝ),
    (l.map Prod.fst).getLastD d.1 = (l.getLastD d).1
  | [], _ => rfl
  | a :: l, d => by
      simp only [List.map_cons, List.getLastD_cons]
      exact getLastD_map_fst l a

lemma getLastD_map_snd : ∀ (l : List (Pt × ℝ)) (d : Pt × ℝ),
    (l.map Prod.snd).getLastD d.2 = (l.getLastD d).2
  | [], _ => rfl
  | a :: l, d => by
      simp only [List.map_cons, List.getLastD_cons]
      exact getLastD_map_snd l a

lemma headD_map_fst (l : List (Pt × ℝ)) (d : Pt × ℝ) :
    (l.map Prod.fst).headD d.1 = (l.headD d).1 := by
  cases l <;> rfl

lemma getLastD_map_fst0 (l : List (Pt × ℝ)) :
    (l.map Prod.fst).getLastD ((0 : ℝ), (0 : ℝ)) =
      (l.getLastD (((0 : ℝ), (0 : ℝ)), 0)).1 :=
  getLastD_map_fst l (((0 : ℝ), (0 : ℝ)), 0)

lemma getLastD_map_snd0 (l : List (Pt × ℝ)) :
    (l.map Prod.snd).getLastD 0 = (l.getLastD (((0 : ℝ), (0 : ℝ)), 0)).2 :=
  getLastD_map_snd l (((0 : ℝ), (0 : ℝ)), 0)

lemma headD_map_fst0 (l : List (Pt × ℝ)) :
    (l.map Prod.fst).headD ((0 : ℝ), (0 : ℝ)) =
      (l.headD (((0 : ℝ), (0 : ℝ)), 0)).1 :=
  headD_map_fst l (((0 : ℝ), (0 : ℝ)), 0)

/-- The loop-built `new_pts` equals the spec's concatenation description. -/
lemma lwNewPts_eq_spec (verts : List (Pt × ℝ)) (closed : Bool) :
    lwNewPts verts closed = lwSpecCurve verts closed := by
  simp only [lwNewPts, lwSpecCurve]
  rw [List.length_map, foldl_append_map, List.nil_append, range_map_bulge]
  cases closed
  · simp
  · rw [if_pos rfl, if_pos rfl, getLastD_map_fst0, getLastD_map_snd0,
      headD_map_fst0]

/-- C7: for a lightweight polyline with at least two vertices, the built
geometry is the `LineString` over the concatenation of `bulge_to_arc` applied
to each consecutive vertex pair with that segment's bulge, plus — exactly when
the polyline is flagged closed — the tessellation of the closing segment from
the last vertex back to the first with the last vertex's bulge. -/
theorem lwpolyline_curve_is_concatenation (verts : List (Pt × ℝ))
    (closed : Bool) (h : 2 ≤ verts.length) :
    lwpolylineGeometry verts closed = mkLineString (lwSpecCurve verts closed) := by
  unfold lwpolylineGeometry
  rw [if_pos (by simpa using h), lwNewPts_eq_spec]

/-- The unit-square closed lightweight polyline (four corners, all bulges
zero). -/
def sqVerts : List (Pt × ℝ) :=
  [(((0 : ℝ), (0 : ℝ)), 0), (((1 : ℝ), (0 : ℝ)), 0),
   (((1 : ℝ), (1 : ℝ)), 0), (((0 : ℝ), (1 : ℝ)), 0)]

/-- C7 witnessed on the closed unit-square polyline. -/
theorem lwpolyline_curve_is_concatenation_witness :
    2 ≤ sqVerts.length ∧
    lwpolylineGeometry sqVerts true = mkLineString (lwSpecCurve sqVerts true) :=
  ⟨by decide, lwpolyline_curve_is_concatenation sqVerts true (by decide)⟩

/-!
## C3 — metrics reported for the unit-square polyline
-/

/-- The unit-square polygon exactly as `shapely.ops.polygonize` returns it for
the square outline: the exterior `LinearRing` holds the four corners with the
first coordinate repeated at the end. -/
def unitSquare : SPoly :=
  ⟨[((0 : ℝ), (0 : ℝ)), ((1 : ℝ), (0 : ℝ)), ((1 : ℝ), (1 : ℝ)),
    ((0 : ℝ), (1 : ℝ)), ((0 : ℝ), (0 : ℝ))]⟩

/-- The tessellated outline of the closed unit-square polyline: each zero-bulge
segment contributes its two endpoints, the closing segment included. -/
def sqPts8 : List Pt :=
  [((0 : ℝ), (0 : ℝ)), ((1 : ℝ), (0 : ℝ)), ((1 : ℝ), (0 : ℝ)),
   ((1 : ℝ), (1 : ℝ)), ((1 : ℝ), (1 : ℝ)), ((0 : ℝ), (1 : ℝ)),
   ((0 : ℝ), (1 : ℝ)), ((0 : ℝ), (0 : ℝ))]

/-- Library behaviour at the unit-square outline: its union is one
`LineString`, polygonizing it yields exactly the unit-square polygon, and that
polygon is valid. -/
def sqOps : GeoOps :=
  { unionType := fun _ => .lineString
    polygonizeRes := fun _ => some [unitSquare]
    alphaRes := fun _ => some .other
    isValid := fun _ => true }

/-- A document holding one closed unit-square lightweight polyline on layer
"A". -/
def docSquare : Doc := ⟨[⟨"A", .lwpolyline sqVerts true⟩], ["A"]⟩

lemma sq_curve : lwpolylineGeometry sqVerts true = some sqPts8 := by
  have harc : ∀ (a b : Pt) (n : ℕ), bulge_to_arc a b 0 n = [a, b] :=
    bulge_to_arc_zero
  have hspec : lwSpecCurve sqVerts true = sqPts8 := by
    simp [lwSpecCurve, sqVerts, harc, sqPts8, List.getLastD_cons]
  unfold lwpolylineGeometry
  rw [if_pos (by simp [sqVerts]), lwNewPts_eq_spec, hspec]
  rfl

lemma sq_state : parseState sqOps docSquare none =
    ⟨[("A", 1)], [sqPts8], [],
      [⟨.lineString sqPts8, "A", "LWPOLYLINE"⟩]⟩ := by
  have hget : get_entities_from_modelspace_and_blocks docSquare.entities none =
      docSquare.entities := rfl
  simp only [parseState, buildState]
  rw [hget]
  simp only [docSquare, List.foldl_cons, List.foldl_nil, processEntity,
    lineLikeGeometry, sq_curve]
  rfl

/-- C3 counterexample: parsing the closed unit-square lightweight polyline
reports a vertex count of 5 — `len(list(poly.exterior.coords))` counts the
duplicated closing coordinate of the shapely ring — not the claimed 4. -/
theorem unit_square_reports_five_vertices :
    (parse_dxf_to_geojson sqOps docSquare 1 none).metadataOf.map
      (fun md => md.constructions.map RegionData.vertices) = some [5] ∧
    (5 : Nat) ≠ 4 := by
  constructor
  · rw [parse_metadataOf_eq, sq_state]
    rfl
  · decide

/-- C3 amended: the unit-square polyline reconstructs to one Region reported
with area `1.0`, perimeter `4.0` and vertex count `5` (the length of the
exterior-ring coordinate sequence, which includes the duplicated closing
point), and its built curve is the expected tessellation. -/
theorem unit_square_region_metrics :
    (parse_dxf_to_geojson sqOps docSquare 1 none).metadataOf.map
      Metadata.constructions = some [⟨1, 4, 5⟩] ∧
    lwpolylineGeometry sqVerts true = some sqPts8 := by
  constructor
  · rw [parse_metadataOf_eq, sq_state]
    show some [regionData unitSquare 1] = some [⟨1, 4, 5⟩]
    have harea : regionData unitSquare 1 = ⟨1, 4, 5⟩ := by
      simp only [regionData, RegionData.mk.injEq, unitSquare, SPoly.area,
        SPoly.perim, shoelace, pathLength]
      norm_num [Real.sqrt_one]
    rw [harea]
  · exact sq_curve

/-!
## C8 — exact polygonization first, alpha-shape fallback second
-/

/-- Step 1 of the reconstruction as the spec describes it: exact
polygonization of the merged union, applicable only when the merged structure
is line-like. -/
noncomputable def polygonizeStage (ops : GeoOps) (lines : List (List Pt)) :
    List SPoly :=
  match ops.unionType lines with
  | .other => []
  | _ => (ops.polygonizeRes lines).getD []

/-- Every point of every curve, pooled into one list. -/
def allPoints (lines : List (List Pt)) : List Pt :=
  lines.foldl (fun acc l => acc ++ l) []

/-- Interpretation of the alpha-shape result: a single polygon becomes the one
Region, a multi-part result contributes one Region per part, anything else
contributes nothing. -/
def alphaRegions : Option AlphaShape → List SPoly
  | some (.poly p) => [p]
  | some (.multi ps) => ps
  | _ => []

/-- C8: for a non-empty list of curves the reconstructor returns the exact
polygonization result whenever it is non-empty (the alpha shape is then never
consulted), and otherwise the interpretation of the alpha shape of all pooled
points at concavity 0.01. -/
theorem reconstruction_fallback (ops : GeoOps) (lines : List (List Pt))
    (h : lines ≠ []) :
    reconstructPolygons ops lines =
      if (polygonizeStage ops lines).isEmpty then
        alphaRegions (ops.alphaRes (allPoints lines))
      else polygonizeStage ops lines := by
  obtain ⟨a, as, rfl⟩ : ∃ x xs, lines = x :: xs := by
    cases lines with
    | nil => exact absurd rfl h
    | cons x xs => exact ⟨x, xs, rfl⟩
  have hall : allPoints (a :: as) = List.foldl (fun acc l => acc ++ l) a as := by
    simp [allPoints]
  cases hu : ops.unionType (a :: as) with
  | other =>
      cases ha : ops.alphaRes (List.foldl (fun acc l => acc ++ l) a as) with
      | none =>
          simp [reconstructPolygons, polygonizeStage, alphaRegions, hall,
            hu, ha]
      | some sh =>
          cases sh <;>
            simp [reconstructPolygons, polygonizeStage, alphaRegions,
              hall, hu, ha]
  | lineString =>
      cases hp : ops.polygonizeRes (a :: as) with
      | none =>
          cases ha : ops.alphaRes (List.foldl (fun acc l => acc ++ l) a as) with
          | none =>
              simp [reconstructPolygons, polygonizeStage, alphaRegions,
                hall, hu, hp, ha]
          | some sh =>
              cases sh <;>
                simp [reconstructPolygons, polygonizeStage, alphaRegions,
                  hall, hu, hp, ha]
      | some ps =>
          cases ps with
          | nil =>
              cases ha : ops.alphaRes (List.foldl (fun acc l => acc ++ l) a as) with
              | none =>
                  simp [reconstructPolygons, polygonizeStage, alphaRegions,
                    hall, hu, hp, ha]
              | some sh =>
                  cases sh <;>
                    simp [reconstructPolygons, polygonizeStage, alphaRegions,
                      hall, hu, hp, ha]
          | cons p ps' =>
              simp [reconstructPolygons, polygonizeStage, hu, hp]
  | multiLineString =>
      cases hp : ops.polygonizeRes (a :: as) with
      | none =>
          cases ha : ops.alphaRes (List.foldl (fun acc l => acc ++ l) a as) with
          | none =>
              simp [reconstructPolygons, polygonizeStage, alphaRegions,
                hall, hu, hp, ha]
          | some sh =>
              cases sh <;>
                simp [reconstructPolygons, polygonizeStage, alphaRegions,
                  hall, hu, hp, ha]
      | some ps =>
          cases ps with
          | nil =>
              cases ha : ops.alphaRes (List.foldl (fun acc l => acc ++ l) a as) with
              | none =>
                  simp [reconstructPolygons, polygonizeStage, alphaRegions,
                    hall, hu, hp, ha]
              | some sh =>
                  cases sh <;>
                    simp [reconstructPolygons, polygonizeStage, alphaRegions,
                      hall, hu, hp, ha]
          | cons p ps' =>
              simp [reconstructPolygons, polygonizeStage, hu, hp]

/-- C8 witnessed on a single open segment with the standard library
behaviour. -/
theorem reconstruction_fallback_witness :
    ([[((0 : ℝ), (0 : ℝ)), ((1 : ℝ), (0 : ℝ))]] : List (List Pt)) ≠ [] ∧
    reconstructPolygons stdOps [[((0 : ℝ), (0 : ℝ)), ((1 : ℝ), (0 : ℝ))]] =
      if (polygonizeStage stdOps
          [[((0 : ℝ), (0 : ℝ)), ((1 : ℝ), (0 : ℝ))]]).isEmpty then
        alphaRegions (stdOps.alphaRes
          (allPoints [[((0 : ℝ), (0 : ℝ)), ((1 : ℝ), (0 : ℝ))]]))
      else polygonizeStage stdOps [[((0 : ℝ), (0 : ℝ)), ((1 : ℝ), (0 : ℝ))]] :=
  ⟨by simp,
   reconstruction_fallback stdOps [[((0 : ℝ), (0 : ℝ)), ((1 : ℝ), (0 : ℝ))]]
     (by simp)⟩

/-!
## C10 — what `total_entities_found` counts
-/

end Topografia
